import Mathlib

/-!
Shallow embedding of `src/gameobjects/BitmapData.js` (`Phaser.BitmapData`):
a canvas-backed drawing surface owning a pixel buffer, a 2D drawing-context
handle, a texture handle and a dirty flag, together with a chainable
delegation facade over the context.

Modelling conventions:
* The 2D canvas context is the external collaborator; it is embedded as the
  list of calls issued to it (`commands`) plus its assignable style
  properties.  Rasterization is external and unmodelled: the commands that
  write to the canvas pixel store are classified by `CanvasCmd.isPaint`
  (`clearRect`, `fill`, `fillRect`, `stroke`, `strokeRect`, `putImageData`).
* Numeric arguments forwarded to the context are modelled as real numbers
  (the source passes JS numbers through verbatim); pixel coordinates, which
  the source compares against `width`/`height` and uses as array indices,
  are modelled as integers; `width`/`height` themselves as naturals.
* `this.pixels` is modelled as a packed 32-bit pixel store `Nat → Int`
  indexed exactly as the source indexes it (`y * width + x`).  In the
  source `pixels` initially aliases the image-data byte buffer and only
  becomes an `Int32Array` view after `refreshBuffer`; no claim depends on
  the pre-`refreshBuffer` byte-level aliasing, so the store is modelled
  uniformly in its packed form.
* `this.data32`, read by `getPixel` and `getPixel32`, is never assigned
  anywhere in the source file (the assignment in `refreshBuffer` is
  commented out); it is modelled as an `Option` field that the constructor
  sets to `none` and no operation ever writes.  Reading it while in bounds
  is a JS `TypeError`, modelled with `Except`.
* `PIXI.texturesToUpdate`, the global upload queue consumed by `render`,
  is carried as a field holding the pushed base-texture ids as observed by
  this surface; no other operation touches it.
* Methods with no `return` statement in the source return JS `undefined`,
  modelled as `Ret.undef`; `return this` is modelled as `Ret.self`.
-/

namespace Phaser

/-- JS `ToUint32`: reduce an integer modulo 2^32 into `[0, 2^32)`. -/
def toUint32 (n : Int) : Nat := (n % (2 ^ 32 : Int)).toNat

/-- JS `ToInt32`: reduce an integer modulo 2^32 into `[-2^31, 2^31)`. -/
def toInt32 (n : Int) : Int :=
  let m := n % (2 ^ 32 : Int)
  if m < 2 ^ 31 then m else m - 2 ^ 32

/-- JS 32-bit left shift `a << k` for the shift counts 8, 16, 24 used here. -/
def jsShl (a : Int) (k : Nat) : Int := toInt32 ((toUint32 a <<< k : Nat) : Int)

/-- JS bitwise or `a | b` on 32-bit signed integers. -/
def jsOr (a b : Int) : Int := toInt32 ((Nat.lor (toUint32 a) (toUint32 b) : Nat) : Int)

/-- The packed value `(alpha << 24) | (blue << 16) | (green << 8) | red`
computed by `setPixel32`, with JS 32-bit signed bitwise arithmetic. -/
def packPixel (red green blue alpha : Int) : Int :=
  jsOr (jsOr (jsOr (jsShl alpha 24) (jsShl blue 16)) (jsShl green 8)) red

/-- Renderer mode checked by `render()`: `Phaser.WEBGL` versus any other
`game.renderType` value (`canvas` stands for every non-WebGL mode). -/
inductive RenderType where
  | webgl
  | canvas
  deriving DecidableEq

/-- JS exception relevant to this file: reading an index off `undefined`. -/
inductive JsErr where
  | typeError
  deriving DecidableEq

/-- Return value of a method of the surface: `this` (chaining), JS
`undefined` (no return statement), a number, or some other object
(image data, gradient). -/
inductive Ret where
  | self
  | undef
  | num (value : Int)
  | obj
  deriving DecidableEq

/-- Kind of a canvas gradient object. -/
inductive GradientKind where
  | linear
  | radial

/-- Canvas gradient object: construction parameters plus the color stops
added via `addColorStop` (stop position paired with its color). -/
structure Gradient where
  kind : GradientKind
  params : List ℝ
  stops : List (ℝ × String)

/-- Value assignable to the context `fillStyle` / `strokeStyle`
properties: a CSS color string or a gradient object. -/
inductive StyleV where
  | color (value : String)
  | gradient (g : Gradient)

/-- Calls issued to the external 2D context, one constructor per context
method invoked anywhere in the source file, with the forwarded arguments. -/
inductive CanvasCmd where
  | getImageData (x y w h : ℝ)
  | putImageData
  | arc (x y radius startAngle endAngle : ℝ) (anticlockwise : Bool)
  | arcTo (x1 y1 x2 y2 radius : ℝ)
  | beginPath
  | bezierCurveTo (cp1x cp1y cp2x cp2y x y : ℝ)
  | clearRect (x y w h : ℝ)
  | clip
  | closePath
  | createLinearGradient (x y w h : ℝ)
  | createRadialGradient (x0 y0 r0 x1 y1 r1 : ℝ)
  | fill
  | fillRect (x y w h : ℝ)
  | lineTo (x y : ℝ)
  | moveTo (x y : ℝ)
  | quadraticCurveTo (cpx cpy x y : ℝ)
  | rect (x y w h : ℝ)
  | restore
  | rotate (angle : ℝ)
  | save
  | scale (x y : ℝ)
  | scrollPathIntoView
  | stroke
  | strokeRect (x y w h : ℝ)

/-- Context calls that write to the canvas pixel store (2D canvas
semantics of the external collaborator).  Path construction, style and
state-stack calls, reads and gradient creation leave the store untouched. -/
def CanvasCmd.isPaint : CanvasCmd → Bool
  | CanvasCmd.putImageData => true
  | CanvasCmd.clearRect _ _ _ _ => true
  | CanvasCmd.fill => true
  | CanvasCmd.fillRect _ _ _ _ => true
  | CanvasCmd.stroke => true
  | CanvasCmd.strokeRect _ _ _ _ => true
  | _ => false

/-- State of the external 2D drawing context as this module observes it:
the calls issued so far, the authoritative canvas pixel store (opaque to
this module, read back by `getImageData`), and the assignable properties
the source writes. -/
structure Context2D where
  commands : List CanvasCmd
  canvasPixels : Nat → Int
  fillStyle : StyleV
  strokeStyle : StyleV
  lineWidth : ℝ
  lineCap : String
  lineJoin : String
  miterLimit : ℝ
  lineDashOffset : ℝ
  font : String
  globalAlpha : ℝ
  globalCompositeOperation : String

/-- State of a `Phaser.BitmapData` object (plus the renderer mode of the
owning game and the global upload queue consumed by `render`). -/
structure BitmapData where
  gameRenderType : RenderType
  name : String
  width : Nat
  height : Nat
  canvasWidth : Nat
  canvasHeight : Nat
  imageDataWidth : Nat
  imageDataHeight : Nat
  pixels : Nat → Int
  data32 : Option (Nat → Int)
  context : Context2D
  baseTexture : Nat
  textureFrameWidth : Nat
  textureFrameHeight : Nat
  dirty : Bool
  texturesToUpdate : List Nat

/-- Constructor `new Phaser.BitmapData(game, width, height)`: omitted
dimensions (`undefined`) default to 256; the canvas, its image data and
the texture frame are created with the resulting dimensions; a fresh
canvas is transparent black (all-zero pixel store); `_dirty` starts
`false`.  `data32` is left unassigned (`none`). -/
def mkBitmapData (renderType : RenderType) (width height : Option Nat) : BitmapData :=
  let w := width.getD 256
  let h := height.getD 256
  { gameRenderType := renderType
    name := ""
    width := w
    height := h
    canvasWidth := w
    canvasHeight := h
    imageDataWidth := w
    imageDataHeight := h
    pixels := fun _ => 0
    data32 := none
    context :=
      { commands := [CanvasCmd.getImageData 0 0 (w : ℝ) (h : ℝ)]
        canvasPixels := fun _ => 0
        fillStyle := StyleV.color "#000000"
        strokeStyle := StyleV.color "#000000"
        lineWidth := 1
        lineCap := "butt"
        lineJoin := "miter"
        miterLimit := 10
        lineDashOffset := 0
        font := "10px sans-serif"
        globalAlpha := 1
        globalCompositeOperation := "source-over" }
    baseTexture := 0
    textureFrameWidth := w
    textureFrameHeight := h
    dirty := false
    texturesToUpdate := [] }

/-- The bounds check `x >= 0 && x <= this.width && y >= 0 && y <= this.height`
shared verbatim by `setPixel32`, `getPixel` and `getPixel32`.  Note the
inclusive upper bounds. -/
def inBounds (s : BitmapData) (x y : Int) : Bool :=
  decide (0 ≤ x) && decide (x ≤ (s.width : Int)) &&
    decide (0 ≤ y) && decide (y ≤ (s.height : Int))

/-- The buffer index `y * this.width + x` used by the pixel accessors. -/
def pixelIndex (s : BitmapData) (x y : Int) : Nat :=
  (y * (s.width : Int) + x).toNat

/-- Issue one call to the 2D context. -/
def pushCmd (c : CanvasCmd) (s : BitmapData) : BitmapData :=
  { s with context := { s.context with commands := s.context.commands ++ [c] } }

/-- Method `add(sprite)`: calls `sprite.loadTexture(this)` on the external
consumer; the surface state is unchanged and there is no return statement. -/
def add (s : BitmapData) : BitmapData × Ret := (s, Ret.undef)

/-- Method `addTo(sprites)`: calls `loadTexture(this)` on each external
element exposing a texture; the surface state is unchanged, no return. -/
def addTo (s : BitmapData) : BitmapData × Ret := (s, Ret.undef)

/-- Method `clear()`: `context.clearRect(0, 0, width, height)`, sets
`_dirty`, no return statement. -/
def clear (s : BitmapData) : BitmapData × Ret :=
  ({ pushCmd (CanvasCmd.clearRect 0 0 (s.width : ℝ) (s.height : ℝ)) s with
      dirty := true }, Ret.undef)

/-- Method `refreshBuffer()`: re-reads the image data from the context and
re-derives the packed `pixels` view from the authoritative store of the
context.  The line assigning `data32` is commented out in the source, so
`data32` stays unassigned.  No return statement, `_dirty` untouched. -/
def refreshBuffer (s : BitmapData) : BitmapData × Ret :=
  ({ pushCmd (CanvasCmd.getImageData 0 0 (s.width : ℝ) (s.height : ℝ)) s with
      imageDataWidth := s.width
      imageDataHeight := s.height
      pixels := s.context.canvasPixels }, Ret.undef)

/-- Method `setPixel32(x, y, red, green, blue, alpha)`: inside the
(inclusive) bounds check, writes the packed value at `y * width + x`,
commits the image data back via `putImageData`, and sets `_dirty`;
otherwise does nothing.  No return statement. -/
def setPixel32 (x y red green blue alpha : Int) (s : BitmapData) : BitmapData × Ret :=
  if inBounds s x y then
    ({ pushCmd CanvasCmd.putImageData s with
        pixels := Function.update s.pixels (pixelIndex s x y) (packPixel red green blue alpha)
        dirty := true }, Ret.undef)
  else (s, Ret.undef)

/-- Method `setPixel(x, y, red, green, blue)`: delegates to `setPixel32`
with `alpha = 255`; no return statement of its own. -/
def setPixel (x y red green blue : Int) (s : BitmapData) : BitmapData × Ret :=
  ((setPixel32 x y red green blue 255 s).1, Ret.undef)

/-- Method `getPixel(x, y)`: inside the bounds check returns
`this.data32[y * width + x]` — a `TypeError` whenever `data32` is
unassigned; out of bounds it falls through and returns `undefined`. -/
def getPixel (x y : Int) (s : BitmapData) : Except JsErr Ret :=
  if inBounds s x y then
    match s.data32 with
    | none => Except.error JsErr.typeError
    | some d => Except.ok (Ret.num (d (pixelIndex s x y)))
  else Except.ok Ret.undef

/-- Method `getPixel32(x, y)`: body identical to `getPixel`. -/
def getPixel32 (x y : Int) (s : BitmapData) : Except JsErr Ret :=
  if inBounds s x y then
    match s.data32 with
    | none => Except.error JsErr.typeError
    | some d => Except.ok (Ret.num (d (pixelIndex s x y)))
  else Except.ok Ret.undef

/-- Method `getPixels(rect)`: `context.getImageData(rect.x, rect.y,
rect.width, rect.height)`, returning the image-data object. -/
def getPixels (x y w h : ℝ) (s : BitmapData) : BitmapData × Ret :=
  (pushCmd (CanvasCmd.getImageData x y w h) s, Ret.obj)

/-- Method `fillStyle(color)`: assigns the context `fillStyle` property
and returns `this`.  No command is issued and `_dirty` is untouched. -/
def fillStyle (color : StyleV) (s : BitmapData) : BitmapData × Ret :=
  ({ s with context := { s.context with fillStyle := color } }, Ret.self)

/-- Method `strokeStyle(style)`: assigns the context `strokeStyle`
property and returns `this`. -/
def strokeStyle (style : StyleV) (s : BitmapData) : BitmapData × Ret :=
  ({ s with context := { s.context with strokeStyle := style } }, Ret.self)

/-- Method `lineWidth(width)`: assigns the context `lineWidth` property
and returns `this`. -/
def lineWidth (width : ℝ) (s : BitmapData) : BitmapData × Ret :=
  ({ s with context := { s.context with lineWidth := width } }, Ret.self)

/-- Method `lineCap(style)`: assigns the context `lineCap` property. -/
def lineCap (style : String) (s : BitmapData) : BitmapData × Ret :=
  ({ s with context := { s.context with lineCap := style } }, Ret.self)

/-- Method `lineJoin(join)`: assigns the context `lineJoin` property. -/
def lineJoin (join : String) (s : BitmapData) : BitmapData × Ret :=
  ({ s with context := { s.context with lineJoin := join } }, Ret.self)

/-- Method `miterLimit(limit)`: assigns the context `miterLimit` property. -/
def miterLimit (limit : ℝ) (s : BitmapData) : BitmapData × Ret :=
  ({ s with context := { s.context with miterLimit := limit } }, Ret.self)

/-- Method `lineDashOffset(offset)`: assigns the context property. -/
def lineDashOffset (offset : ℝ) (s : BitmapData) : BitmapData × Ret :=
  ({ s with context := { s.context with lineDashOffset := offset } }, Ret.self)

/-- Method `font(font)`: assigns the context `font` property. -/
def font (f : String) (s : BitmapData) : BitmapData × Ret :=
  ({ s with context := { s.context with font := f } }, Ret.self)

/-- Method `globalAlpha(alpha)`: assigns the context property. -/
def globalAlpha (alpha : ℝ) (s : BitmapData) : BitmapData × Ret :=
  ({ s with context := { s.context with globalAlpha := alpha } }, Ret.self)

/-- Method `globalCompositeOperation(operation)`: assigns the property. -/
def globalCompositeOperation (operation : String) (s : BitmapData) : BitmapData × Ret :=
  ({ s with context := { s.context with globalCompositeOperation := operation } }, Ret.self)

/-- Method `arc(x, y, radius, startAngle, endAngle, anticlockwise)`:
`anticlockwise` defaults to `false` when omitted; sets `_dirty`,
forwards the call, returns `this`. -/
def arc (x y radius startAngle endAngle : ℝ) (anticlockwise : Option Bool)
    (s : BitmapData) : BitmapData × Ret :=
  let a := anticlockwise.getD false
  ({ pushCmd (CanvasCmd.arc x y radius startAngle endAngle a) s with dirty := true },
   Ret.self)

/-- Method `arcTo(x1, y1, x2, y2, radius)`: sets `_dirty`, forwards,
returns `this`. -/
def arcTo (x1 y1 x2 y2 radius : ℝ) (s : BitmapData) : BitmapData × Ret :=
  ({ pushCmd (CanvasCmd.arcTo x1 y1 x2 y2 radius) s with dirty := true }, Ret.self)

/-- Method `beginFill(color)`: delegates to `fillStyle`, returns `this`. -/
def beginFill (color : StyleV) (s : BitmapData) : BitmapData × Ret :=
  ((fillStyle color s).1, Ret.self)

/-- Method `createLinearGradient(x, y, width, height)`: forwards to the
context and returns the gradient object. -/
def createLinearGradient (x y w h : ℝ) (s : BitmapData) : BitmapData × Ret :=
  (pushCmd (CanvasCmd.createLinearGradient x y w h) s, Ret.obj)

/-- Method `createRadialGradient(x0, y0, r0, x1, y1, r1)`: forwards to the
context and returns the gradient object. -/
def createRadialGradient (x0 y0 r0 x1 y1 r1 : ℝ) (s : BitmapData) : BitmapData × Ret :=
  (pushCmd (CanvasCmd.createRadialGradient x0 y0 r0 x1 y1 r1) s, Ret.obj)

/-- Method `beginLinearGradientFill(colors, ratios, x0, y0, x1, y1)`:
creates a linear gradient via `createLinearGradient`, adds one color stop
per color (the loop pairs `ratios[i]` with `colors[i]`), assigns it as
fill style and returns `this`. -/
def beginLinearGradientFill (colors : List String) (ratios : List ℝ) (x0 y0 x1 y1 : ℝ)
    (s : BitmapData) : BitmapData × Ret :=
  let s1 := (createLinearGradient x0 y0 x1 y1 s).1
  let g : Gradient :=
    { kind := GradientKind.linear, params := [x0, y0, x1, y1], stops := List.zip ratios colors }
  ((fillStyle (StyleV.gradient g) s1).1, Ret.self)

/-- Method `beginLinearGradientStroke(colors, ratios, x0, y0, x1, y1)`:
same as the fill variant but assigns the stroke style. -/
def beginLinearGradientStroke (colors : List String) (ratios : List ℝ) (x0 y0 x1 y1 : ℝ)
    (s : BitmapData) : BitmapData × Ret :=
  let s1 := (createLinearGradient x0 y0 x1 y1 s).1
  let g : Gradient :=
    { kind := GradientKind.linear, params := [x0, y0, x1, y1], stops := List.zip ratios colors }
  ((strokeStyle (StyleV.gradient g) s1).1, Ret.self)

/-- Method `beginRadialGradientStroke(colors, ratios, x0, y0, r0, x1, y1, r1)`:
creates a radial gradient, adds the stops, assigns the stroke style,
returns `this`. -/
def beginRadialGradientStroke (colors : List String) (ratios : List ℝ)
    (x0 y0 r0 x1 y1 r1 : ℝ) (s : BitmapData) : BitmapData × Ret :=
  let s1 := (createRadialGradient x0 y0 r0 x1 y1 r1 s).1
  let g : Gradient :=
    { kind := GradientKind.radial, params := [x0, y0, r0, x1, y1, r1]
      stops := List.zip ratios colors }
  ((strokeStyle (StyleV.gradient g) s1).1, Ret.self)

/-- Method `beginPath()`: forwards and returns `this`; `_dirty` is NOT set
by this method in the source. -/
def beginPath (s : BitmapData) : BitmapData × Ret :=
  (pushCmd CanvasCmd.beginPath s, Ret.self)

/-- Method `beginStroke(color)`: delegates to `strokeStyle`, returns
`this`. -/
def beginStroke (color : StyleV) (s : BitmapData) : BitmapData × Ret :=
  ((strokeStyle color s).1, Ret.self)

/-- Method `bezierCurveTo(cp1x, cp1y, cp2x, cp2y, x, y)`: sets `_dirty`,
forwards, returns `this`. -/
def bezierCurveTo (cp1x cp1y cp2x cp2y x y : ℝ) (s : BitmapData) : BitmapData × Ret :=
  ({ pushCmd (CanvasCmd.bezierCurveTo cp1x cp1y cp2x cp2y x y) s with dirty := true },
   Ret.self)

/-- Method `circle(x, y, radius)`: `this.arc(x, y, radius, 0, Math.PI*2)`
with `anticlockwise` omitted, then returns `this`. -/
noncomputable def circle (x y radius : ℝ) (s : BitmapData) : BitmapData × Ret :=
  ((arc x y radius 0 (Real.pi * 2) none s).1, Ret.self)

/-- Method `clearRect(x, y, width, height)`: sets `_dirty`, forwards,
returns `this`. -/
def clearRect (x y w h : ℝ) (s : BitmapData) : BitmapData × Ret :=
  ({ pushCmd (CanvasCmd.clearRect x y w h) s with dirty := true }, Ret.self)

/-- Method `clip()`: sets `_dirty`, forwards, returns `this`. -/
def clip (s : BitmapData) : BitmapData × Ret :=
  ({ pushCmd CanvasCmd.clip s with dirty := true }, Ret.self)

/-- Method `closePath()`: sets `_dirty`, forwards, returns `this`. -/
def closePath (s : BitmapData) : BitmapData × Ret :=
  ({ pushCmd CanvasCmd.closePath s with dirty := true }, Ret.self)

/-- Method `moveTo(x, y)`: forwards and returns `this`; `_dirty` is NOT
set by this method in the source. -/
def moveTo (x y : ℝ) (s : BitmapData) : BitmapData × Ret :=
  (pushCmd (CanvasCmd.moveTo x y) s, Ret.self)

/-- Method `ellipse(x, y, w, h)`: four cubic Bézier segments with the
circle-approximation constant `k = 0.5522848`, built from `moveTo` and
`bezierCurveTo` exactly as in the source; returns `this`. -/
noncomputable def ellipse (x y w h : ℝ) (s : BitmapData) : BitmapData × Ret :=
  let k : ℝ := 0.5522848
  let ox := w / 2 * k
  let oy := h / 2 * k
  let xe := x + w
  let ye := y + h
  let xm := x + w / 2
  let ym := y + h / 2
  let s1 := (moveTo x ym s).1
  let s2 := (bezierCurveTo x (ym - oy) (xm - ox) y xm y s1).1
  let s3 := (bezierCurveTo (xm + ox) y xe (ym - oy) xe ym s2).1
  let s4 := (bezierCurveTo xe (ym + oy) (xm + ox) ye xm ye s3).1
  let s5 := (bezierCurveTo (xm - ox) ye x (ym + oy) x ym s4).1
  (s5, Ret.self)

/-- Method `fill()`: sets `_dirty`, forwards, returns `this`. -/
def fill (s : BitmapData) : BitmapData × Ret :=
  ({ pushCmd CanvasCmd.fill s with dirty := true }, Ret.self)

/-- Method `fillRect(x, y, width, height)`: sets `_dirty`, forwards,
returns `this`. -/
def fillRect (x y w h : ℝ) (s : BitmapData) : BitmapData × Ret :=
  ({ pushCmd (CanvasCmd.fillRect x y w h) s with dirty := true }, Ret.self)

/-- Method `lineTo(x, y)`: sets `_dirty`, forwards, returns `this`. -/
def lineTo (x y : ℝ) (s : BitmapData) : BitmapData × Ret :=
  ({ pushCmd (CanvasCmd.lineTo x y) s with dirty := true }, Ret.self)

/-- Method `quadraticCurveTo(cpx, cpy, x, y)`: sets `_dirty`, forwards,
returns `this`. -/
def quadraticCurveTo (cpx cpy x y : ℝ) (s : BitmapData) : BitmapData × Ret :=
  ({ pushCmd (CanvasCmd.quadraticCurveTo cpx cpy x y) s with dirty := true }, Ret.self)

/-- Method `rect(x, y, width, height)`: sets `_dirty`, forwards, returns
`this`. -/
def rect (x y w h : ℝ) (s : BitmapData) : BitmapData × Ret :=
  ({ pushCmd (CanvasCmd.rect x y w h) s with dirty := true }, Ret.self)

/-- Method `restore()`: sets `_dirty`, forwards, returns `this`. -/
def restore (s : BitmapData) : BitmapData × Ret :=
  ({ pushCmd CanvasCmd.restore s with dirty := true }, Ret.self)

/-- Method `rotate(angle)`: sets `_dirty`, forwards, returns `this`. -/
def rotate (angle : ℝ) (s : BitmapData) : BitmapData × Ret :=
  ({ pushCmd (CanvasCmd.rotate angle) s with dirty := true }, Ret.self)

/-- Method `setStrokeStyle(thickness, caps, joints, miterLimit, ignoreScale)`:
defaults `thickness = 1`, `caps = "butt"`, `joints = "miter"`,
`miterLimit = 10`; `ignoreScale` is overwritten with `false` and unused;
delegates to `lineWidth`, `lineCap`, `lineJoin`, `miterLimit`; returns
`this`. -/
def setStrokeStyle (thickness : Option ℝ) (caps joints : Option String)
    (limit : Option ℝ) (_ignoreScale : Option Bool) (s : BitmapData) : BitmapData × Ret :=
  let t := thickness.getD 1
  let c := caps.getD "butt"
  let j := joints.getD "miter"
  let m := limit.getD 10
  let s1 := (lineWidth t s).1
  let s2 := (lineCap c s1).1
  let s3 := (lineJoin j s2).1
  let s4 := (miterLimit m s3).1
  (s4, Ret.self)

/-- Method `save()`: sets `_dirty`, forwards, returns `this`. -/
def save (s : BitmapData) : BitmapData × Ret :=
  ({ pushCmd CanvasCmd.save s with dirty := true }, Ret.self)

/-- Method `scale(x, y)`: sets `_dirty`, forwards, returns `this`. -/
def scale (x y : ℝ) (s : BitmapData) : BitmapData × Ret :=
  ({ pushCmd (CanvasCmd.scale x y) s with dirty := true }, Ret.self)

/-- Method `scrollPathIntoView()`: sets `_dirty`, forwards, returns `this`. -/
def scrollPathIntoView (s : BitmapData) : BitmapData × Ret :=
  ({ pushCmd CanvasCmd.scrollPathIntoView s with dirty := true }, Ret.self)

/-- Method `stroke()`: sets `_dirty`, forwards, returns `this`. -/
def stroke (s : BitmapData) : BitmapData × Ret :=
  ({ pushCmd CanvasCmd.stroke s with dirty := true }, Ret.self)

/-- Method `strokeRect(x, y, width, height)`: sets `_dirty`, forwards,
returns `this`. -/
def strokeRect (x y w h : ℝ) (s : BitmapData) : BitmapData × Ret :=
  ({ pushCmd (CanvasCmd.strokeRect x y w h) s with dirty := true }, Ret.self)

/-- Method `render()`: when `_dirty`, pushes the base texture onto the
global upload queue only if `game.renderType == Phaser.WEBGL`, then
clears `_dirty`; otherwise does nothing.  No return statement. -/
def render (s : BitmapData) : BitmapData × Ret :=
  if s.dirty then
    ({ s with
        texturesToUpdate :=
          if s.gameRenderType = RenderType.webgl
          then s.texturesToUpdate ++ [s.baseTexture]
          else s.texturesToUpdate
        dirty := false }, Ret.undef)
  else (s, Ret.undef)

/-- One constructor per public method of `Phaser.BitmapData.prototype`,
carrying the method arguments.  The terse EaselJS aliases (`mt`, `lt`,
`a`, ...) are reference-equal to the methods listed here and add no
distinct behavior; the aliases bound to methods absent from the file
(`ef`, `rf`, ...) are `undefined` and are not operations. -/
inductive Op where
  | add
  | addTo
  | clear
  | refreshBuffer
  | setPixel32 (x y red green blue alpha : Int)
  | setPixel (x y red green blue : Int)
  | getPixel (x y : Int)
  | getPixel32 (x y : Int)
  | getPixels (x y w h : ℝ)
  | arc (x y radius startAngle endAngle : ℝ) (anticlockwise : Option Bool)
  | arcTo (x1 y1 x2 y2 radius : ℝ)
  | beginFill (color : StyleV)
  | beginLinearGradientFill (colors : List String) (ratios : List ℝ) (x0 y0 x1 y1 : ℝ)
  | beginLinearGradientStroke (colors : List String) (ratios : List ℝ) (x0 y0 x1 y1 : ℝ)
  | beginRadialGradientStroke (colors : List String) (ratios : List ℝ) (x0 y0 r0 x1 y1 r1 : ℝ)
  | beginPath
  | beginStroke (color : StyleV)
  | bezierCurveTo (cp1x cp1y cp2x cp2y x y : ℝ)
  | circle (x y radius : ℝ)
  | clearRect (x y w h : ℝ)
  | clip
  | closePath
  | createLinearGradient (x y w h : ℝ)
  | createRadialGradient (x0 y0 r0 x1 y1 r1 : ℝ)
  | ellipse (x y w h : ℝ)
  | fill
  | fillRect (x y w h : ℝ)
  | fillStyle (color : StyleV)
  | font (f : String)
  | globalAlpha (alpha : ℝ)
  | globalCompositeOperation (operation : String)
  | lineCap (style : String)
  | lineDashOffset (offset : ℝ)
  | lineJoin (join : String)
  | lineWidth (width : ℝ)
  | miterLimit (limit : ℝ)
  | lineTo (x y : ℝ)
  | moveTo (x y : ℝ)
  | quadraticCurveTo (cpx cpy x y : ℝ)
  | rect (x y w h : ℝ)
  | restore
  | rotate (angle : ℝ)
  | setStrokeStyle (thickness : Option ℝ) (caps joints : Option String)
      (limit : Option ℝ) (ignoreScale : Option Bool)
  | save
  | scale (x y : ℝ)
  | scrollPathIntoView
  | stroke
  | strokeRect (x y w h : ℝ)
  | strokeStyle (style : StyleV)
  | render

/-- Execute one method call on a surface state: the resulting state and
return value, or the JS exception it throws (`getPixel` / `getPixel32`
in bounds, where the unassigned `data32` is indexed). -/
noncomputable def applyOp : Op → BitmapData → Except JsErr (BitmapData × Ret)
  | Op.add, s => Except.ok (add s)
  | Op.addTo, s => Except.ok (addTo s)
  | Op.clear, s => Except.ok (clear s)
  | Op.refreshBuffer, s => Except.ok (refreshBuffer s)
  | Op.setPixel32 x y r g b a, s => Except.ok (setPixel32 x y r g b a s)
  | Op.setPixel x y r g b, s => Except.ok (setPixel x y r g b s)
  | Op.getPixel x y, s => (getPixel x y s).map (fun v => (s, v))
  | Op.getPixel32 x y, s => (getPixel32 x y s).map (fun v => (s, v))
  | Op.getPixels x y w h, s => Except.ok (getPixels x y w h s)
  | Op.arc x y radius sa ea anti, s => Except.ok (arc x y radius sa ea anti s)
  | Op.arcTo x1 y1 x2 y2 radius, s => Except.ok (arcTo x1 y1 x2 y2 radius s)
  | Op.beginFill color, s => Except.ok (beginFill color s)
  | Op.beginLinearGradientFill cs rs x0 y0 x1 y1, s =>
      Except.ok (beginLinearGradientFill cs rs x0 y0 x1 y1 s)
  | Op.beginLinearGradientStroke cs rs x0 y0 x1 y1, s =>
      Except.ok (beginLinearGradientStroke cs rs x0 y0 x1 y1 s)
  | Op.beginRadialGradientStroke cs rs x0 y0 r0 x1 y1 r1, s =>
      Except.ok (beginRadialGradientStroke cs rs x0 y0 r0 x1 y1 r1 s)
  | Op.beginPath, s => Except.ok (beginPath s)
  | Op.beginStroke color, s => Except.ok (beginStroke color s)
  | Op.bezierCurveTo a b c d e f, s => Except.ok (bezierCurveTo a b c d e f s)
  | Op.circle x y radius, s => Except.ok (circle x y radius s)
  | Op.clearRect x y w h, s => Except.ok (clearRect x y w h s)
  | Op.clip, s => Except.ok (clip s)
  | Op.closePath, s => Except.ok (closePath s)
  | Op.createLinearGradient x y w h, s => Except.ok (createLinearGradient x y w h s)
  | Op.createRadialGradient x0 y0 r0 x1 y1 r1, s =>
      Except.ok (createRadialGradient x0 y0 r0 x1 y1 r1 s)
  | Op.ellipse x y w h, s => Except.ok (ellipse x y w h s)
  | Op.fill, s => Except.ok (fill s)
  | Op.fillRect x y w h, s => Except.ok (fillRect x y w h s)
  | Op.fillStyle color, s => Except.ok (fillStyle color s)
  | Op.font f, s => Except.ok (font f s)
  | Op.globalAlpha a, s => Except.ok (globalAlpha a s)
  | Op.globalCompositeOperation o, s => Except.ok (globalCompositeOperation o s)
  | Op.lineCap c, s => Except.ok (lineCap c s)
  | Op.lineDashOffset o, s => Except.ok (lineDashOffset o s)
  | Op.lineJoin j, s => Except.ok (lineJoin j s)
  | Op.lineWidth w, s => Except.ok (lineWidth w s)
  | Op.miterLimit l, s => Except.ok (miterLimit l s)
  | Op.lineTo x y, s => Except.ok (lineTo x y s)
  | Op.moveTo x y, s => Except.ok (moveTo x y s)
  | Op.quadraticCurveTo cpx cpy x y, s => Except.ok (quadraticCurveTo cpx cpy x y s)
  | Op.rect x y w h, s => Except.ok (rect x y w h s)
  | Op.restore, s => Except.ok (restore s)
  | Op.rotate a, s => Except.ok (rotate a s)
  | Op.setStrokeStyle t c j m i, s => Except.ok (setStrokeStyle t c j m i s)
  | Op.save, s => Except.ok (save s)
  | Op.scale x y, s => Except.ok (scale x y s)
  | Op.scrollPathIntoView, s => Except.ok (scrollPathIntoView s)
  | Op.stroke, s => Except.ok (stroke s)
  | Op.strokeRect x y w h, s => Except.ok (strokeRect x y w h s)
  | Op.strokeStyle st, s => Except.ok (strokeStyle st s)
  | Op.render, s => Except.ok (render s)

/-- The buffer-writing context calls issued so far: the observable trace
of pixel-buffer mutations (rasterization itself being external). -/
def paintCmds (s : BitmapData) : List CanvasCmd :=
  s.context.commands.filter CanvasCmd.isPaint

/-- The operations whose source methods lack a `return` statement among
the buffer-mutating ones: `clear`, `setPixel32`, `setPixel`. -/
def returnsUndefOp : Op → Bool
  | Op.clear => true
  | Op.setPixel32 _ _ _ _ _ _ => true
  | Op.setPixel _ _ _ _ _ => true
  | _ => false

/-- A freshly constructed 4×4 surface owned by a WebGL-mode game. -/
def sampleWebgl : BitmapData := mkBitmapData RenderType.webgl (some 4) (some 4)

/-- A freshly constructed 4×4 surface owned by a canvas-mode game. -/
def sampleCanvas : BitmapData := mkBitmapData RenderType.canvas (some 4) (some 4)

/-- The canvas-mode sample after `lineTo(1, 1)`: dirty, nothing painted. -/
def dirtyCanvas : BitmapData := (lineTo 1 1 sampleCanvas).1

/-- The WebGL-mode sample after `lineTo(1, 1)`: dirty, nothing painted. -/
def dirtyWebgl : BitmapData := (lineTo 1 1 sampleWebgl).1

theorem list_ne_of_length_ne {α : Type} {l1 l2 : List α}
    (h : l1.length ≠ l2.length) : l1 ≠ l2 :=
  fun he => h (congrArg List.length he)

theorem ok_pair_fst {e : BitmapData × Ret} {s' : BitmapData} {r : Ret}
    (h : (Except.ok e : Except JsErr (BitmapData × Ret)) = Except.ok (s', r)) :
    e.1 = s' := by
  injection h with h1
  rw [h1]

theorem ok_pair_snd {e : BitmapData × Ret} {s' : BitmapData} {r : Ret}
    (h : (Except.ok e : Except JsErr (BitmapData × Ret)) = Except.ok (s', r)) :
    e.2 = r := by
  injection h with h1
  rw [h1]

theorem paintCmds_append_nonpaint (s s' : BitmapData) (c : CanvasCmd)
    (hcmd : s'.context.commands = s.context.commands ++ [c])
    (hc : CanvasCmd.isPaint c = false) : paintCmds s' = paintCmds s := by
  unfold paintCmds
  rw [hcmd, List.filter_append]
  simp [List.filter_cons, hc]

/-- C1: the claim asserts that `setPixel32(x,y,r,g,b,a)` followed by
`getPixel32(x,y)` returns the packed value.  On the code, `getPixel32`
indexes `this.data32`, which no statement in the file ever assigns (the
assignment in `refreshBuffer` is commented out), so the read throws a
`TypeError` instead of returning the packed value: evaluated here at a
4×4 surface with `setPixel32(1,2,10,20,30,40)` then `getPixel32(1,2)`. -/
theorem setPixel32_then_getPixel32_throws :
    getPixel32 1 2 (setPixel32 1 2 10 20 30 40 sampleCanvas).1 =
      Except.error JsErr.typeError := rfl

/-- C4: for every coordinate rejected by the bounds check of
`setPixel32`, the call does not throw (it yields a normal `undefined`
return), leaves the whole surface state — pixel buffer and dirty flag
included — unchanged. -/
theorem setPixel32_out_of_range_noop (s : BitmapData) (x y red green blue alpha : Int)
    (h : inBounds s x y = false) :
    applyOp (Op.setPixel32 x y red green blue alpha) s = Except.ok (s, Ret.undef) := by
  simp [applyOp, setPixel32, h]

/-- Witness for C4 at `x = width + 1` on a 4×4 surface. -/
theorem setPixel32_out_of_range_noop_witness :
    inBounds sampleWebgl 5 0 = false ∧
    applyOp (Op.setPixel32 5 0 1 2 3 4) sampleWebgl = Except.ok (sampleWebgl, Ret.undef) :=
  ⟨rfl, setPixel32_out_of_range_noop sampleWebgl 5 0 1 2 3 4 rfl⟩

/-- C5: the bounds check shared by `setPixel32`, `getPixel` and
`getPixel32` uses inclusive upper bounds, so the coordinate
`(width, height)` is accepted although its computed index
`y * width + x` is at least `width * height`, i.e. outside the
`width * height`-entry buffer; `setPixel32` then actually performs the
write (its dirty flag is set rather than the call being ignored). -/
theorem bounds_check_inclusive_overflow (s : BitmapData) :
    inBounds s (s.width : Int) (s.height : Int) = true ∧
    s.width * s.height ≤ pixelIndex s (s.width : Int) (s.height : Int) ∧
    (setPixel32 (s.width : Int) (s.height : Int) 0 0 0 0 s).1.dirty = true := by
  have hb : inBounds s (s.width : Int) (s.height : Int) = true := by
    simp [inBounds]
  refine ⟨hb, ?_, ?_⟩
  · unfold pixelIndex
    have hcast : ((s.height : Int) * (s.width : Int) + (s.width : Int)) =
        ((s.height * s.width + s.width : Nat) : Int) := by push_cast; ring
    rw [hcast, Int.toNat_natCast]
    calc s.width * s.height = s.height * s.width := Nat.mul_comm _ _
      _ ≤ s.height * s.width + s.width := Nat.le_add_right _ _
  · simp [setPixel32, hb]

/-- C7 (amended): `setPixel(x, y, r, g, b)` has exactly the same effect —
state and return value — as `setPixel32(x, y, r, g, b, 255)`. -/
theorem setPixel_eq_setPixel32_opaque (x y red green blue : Int) (s : BitmapData) :
    setPixel x y red green blue s = setPixel32 x y red green blue 255 s := by
  unfold setPixel setPixel32
  split <;> rfl

/-- C7 counterexample: the claim additionally asserts that a subsequent
`getPixel32` yields alpha byte `0xFF`; on the code `getPixel32` instead
throws (it reads the never-assigned `data32`), evaluated here after
`setPixel(1,1,10,20,30)` on a fresh 4×4 surface. -/
theorem getPixel32_after_setPixel_throws :
    getPixel32 1 1 (setPixel 1 1 10 20 30 sampleWebgl).1 =
      Except.error JsErr.typeError := rfl

/-- C8: `circle(x, y, r)` issues exactly the path command of
`arc(x, y, r, 0, 2π, false)` — the omitted `anticlockwise` defaulting to
`false` — and agrees with it on the whole resulting state (dirty flag
included) and on the return value. -/
theorem circle_eq_arc_two_pi (x y radius : ℝ) (s : BitmapData) :
    circle x y radius s = arc x y radius 0 (2 * Real.pi) (some false) s := by
  unfold circle arc
  rw [mul_comm 2 Real.pi]
  rfl

/-- C9: the pure style setters `fillStyle`, `lineWidth` and `font` leave
the dirty flag, the packed pixel store and the trace of buffer-writing
context calls exactly as they were. -/
theorem style_setters_preserve_dirty_and_buffer (s : BitmapData) (color : StyleV)
    (w : ℝ) (f : String) :
    ((fillStyle color s).1.dirty = s.dirty ∧
      (fillStyle color s).1.pixels = s.pixels ∧
      paintCmds (fillStyle color s).1 = paintCmds s) ∧
    ((lineWidth w s).1.dirty = s.dirty ∧
      (lineWidth w s).1.pixels = s.pixels ∧
      paintCmds (lineWidth w s).1 = paintCmds s) ∧
    ((font f s).1.dirty = s.dirty ∧
      (font f s).1.pixels = s.pixels ∧
      paintCmds (font f s).1 = paintCmds s) :=
  ⟨⟨rfl, rfl, rfl⟩, ⟨rfl, rfl, rfl⟩, ⟨rfl, rfl, rfl⟩⟩

/-- C10: a constructor argument left `undefined` defaults to 256, and the
canvas, the image-data buffer and the texture frame are created with the
defaulted dimensions. -/
theorem constructor_defaults_256 (rt : RenderType) :
    (∀ oh, (mkBitmapData rt none oh).width = 256 ∧
        (mkBitmapData rt none oh).canvasWidth = 256 ∧
        (mkBitmapData rt none oh).imageDataWidth = 256 ∧
        (mkBitmapData rt none oh).textureFrameWidth = 256) ∧
    (∀ ow, (mkBitmapData rt ow none).height = 256 ∧
        (mkBitmapData rt ow none).canvasHeight = 256 ∧
        (mkBitmapData rt ow none).imageDataHeight = 256 ∧
        (mkBitmapData rt ow none).textureFrameHeight = 256) ∧
    ((mkBitmapData rt none none).width = 256 ∧
      (mkBitmapData rt none none).height = 256) :=
  ⟨fun _ => ⟨rfl, rfl, rfl, rfl⟩, fun _ => ⟨rfl, rfl, rfl, rfl⟩, rfl, rfl⟩

/-- C2 counterexample: `save()` issues no buffer-writing call and leaves
the packed pixel store and the canvas store unchanged, yet flips the
dirty flag from `false` to `true` on a freshly constructed surface —
refuting that "no operation that leaves the buffer unchanged sets it". -/
theorem save_sets_dirty_without_buffer_mutation :
    sampleWebgl.dirty = false ∧
    (save sampleWebgl).1.dirty = true ∧
    paintCmds (save sampleWebgl).1 = paintCmds sampleWebgl ∧
    (save sampleWebgl).1.pixels = sampleWebgl.pixels ∧
    (save sampleWebgl).1.context.canvasPixels = sampleWebgl.context.canvasPixels :=
  ⟨rfl, rfl, rfl, rfl, rfl⟩

/-- C3 counterexample: on a dirty surface whose game renders in canvas
mode, `render()` clears the dirty flag but pushes nothing onto the
upload queue — refuting that `render()` notifies the texture-upload
queue whenever dirty is true. -/
theorem render_dirty_canvas_no_upload_signal :
    dirtyCanvas.dirty = true ∧
    (render dirtyCanvas).1.texturesToUpdate = dirtyCanvas.texturesToUpdate ∧
    (render dirtyCanvas).1.dirty = false :=
  ⟨rfl, rfl, rfl⟩

/-- C3 (amended): `render()` is a no-op when `dirty` is false; when
`dirty` is true it clears the flag and pushes the base texture onto the
upload queue exactly when the game renders in WebGL mode (no
notification otherwise); and it is idempotent — a second call with no
intervening mutation changes nothing and signals no further upload. -/
theorem render_amended (s : BitmapData) :
    (s.dirty = false → render s = (s, Ret.undef)) ∧
    (s.dirty = true →
      (render s).1.dirty = false ∧
      (render s).1.texturesToUpdate =
        (if s.gameRenderType = RenderType.webgl
         then s.texturesToUpdate ++ [s.baseTexture]
         else s.texturesToUpdate)) ∧
    render (render s).1 = ((render s).1, Ret.undef) := by
  by_cases hd : s.dirty <;>
    refine ⟨fun hf => ?_, fun ht => ?_, ?_⟩ <;>
    simp_all [render]

/-- Witness for C3 at a concrete dirty WebGL-mode surface. -/
theorem render_amended_witness :
    (render dirtyWebgl).1.dirty = false ∧
    (render dirtyWebgl).1.texturesToUpdate =
      dirtyWebgl.texturesToUpdate ++ [dirtyWebgl.baseTexture] := by
  have h := (render_amended dirtyWebgl).2.1 rfl
  exact ⟨h.1, by rw [h.2]; rfl⟩

/-- C2 (amended): the dirty flag is false after construction; every
operation that mutates the pixel buffer (issues a buffer-writing context
call) leaves the flag set; and no operation other than `render()` ever
clears it.  The converse of the claim — that only buffer mutations set
the flag — fails (see the counterexample): path-building and state-stack
operations also set it. -/
theorem dirty_flag_amended :
    (∀ rt ow oh, (mkBitmapData rt ow oh).dirty = false) ∧
    (∀ op s s' r, applyOp op s = Except.ok (s', r) →
      (paintCmds s' ≠ paintCmds s → s'.dirty = true) ∧
      (op ≠ Op.render → s.dirty = true → s'.dirty = true)) := by
  refine ⟨fun rt ow oh => rfl, fun op s s' r h => ?_⟩
  cases op
  case getPixel x y =>
    simp only [applyOp] at h
    unfold getPixel at h
    split at h
    · split at h
      · simp [Except.map] at h
      · simp only [Except.map] at h
        have hs := ok_pair_fst h
        subst hs
        exact ⟨fun hne => absurd rfl hne, fun _ hd => hd⟩
    · simp only [Except.map] at h
      have hs := ok_pair_fst h
      subst hs
      exact ⟨fun hne => absurd rfl hne, fun _ hd => hd⟩
  case getPixel32 x y =>
    simp only [applyOp] at h
    unfold getPixel32 at h
    split at h
    · split at h
      · simp [Except.map] at h
      · simp only [Except.map] at h
        have hs := ok_pair_fst h
        subst hs
        exact ⟨fun hne => absurd rfl hne, fun _ hd => hd⟩
    · simp only [Except.map] at h
      have hs := ok_pair_fst h
      subst hs
      exact ⟨fun hne => absurd rfl hne, fun _ hd => hd⟩
  case setPixel32 x y red green blue alpha =>
    have hs := ok_pair_fst h
    subst hs
    unfold setPixel32
    split
    · exact ⟨fun _ => rfl, fun _ _ => rfl⟩
    · exact ⟨fun hne => absurd rfl hne, fun _ hd => hd⟩
  case setPixel x y red green blue =>
    have hs := ok_pair_fst h
    subst hs
    unfold setPixel setPixel32
    split
    · exact ⟨fun _ => rfl, fun _ _ => rfl⟩
    · exact ⟨fun hne => absurd rfl hne, fun _ hd => hd⟩
  case render =>
    have hs := ok_pair_fst h
    subst hs
    refine ⟨fun hne => absurd ?_ hne, fun hne _ => absurd rfl hne⟩
    show paintCmds (render s).1 = paintCmds s
    unfold render
    split <;> rfl
  case refreshBuffer =>
    have hs := ok_pair_fst h
    subst hs
    exact ⟨fun hne => absurd (paintCmds_append_nonpaint s _
      (CanvasCmd.getImageData 0 0 (s.width : ℝ) (s.height : ℝ)) rfl rfl) hne,
      fun _ hd => hd⟩
  case getPixels x y w hh =>
    have hs := ok_pair_fst h
    subst hs
    exact ⟨fun hne => absurd (paintCmds_append_nonpaint s _
      (CanvasCmd.getImageData x y w hh) rfl rfl) hne, fun _ hd => hd⟩
  case beginLinearGradientFill cs rs x0 y0 x1 y1 =>
    have hs := ok_pair_fst h
    subst hs
    exact ⟨fun hne => absurd (paintCmds_append_nonpaint s _
      (CanvasCmd.createLinearGradient x0 y0 x1 y1) rfl rfl) hne, fun _ hd => hd⟩
  case beginLinearGradientStroke cs rs x0 y0 x1 y1 =>
    have hs := ok_pair_fst h
    subst hs
    exact ⟨fun hne => absurd (paintCmds_append_nonpaint s _
      (CanvasCmd.createLinearGradient x0 y0 x1 y1) rfl rfl) hne, fun _ hd => hd⟩
  case beginRadialGradientStroke cs rs x0 y0 r0 x1 y1 r1 =>
    have hs := ok_pair_fst h
    subst hs
    exact ⟨fun hne => absurd (paintCmds_append_nonpaint s _
      (CanvasCmd.createRadialGradient x0 y0 r0 x1 y1 r1) rfl rfl) hne, fun _ hd => hd⟩
  case beginPath =>
    have hs := ok_pair_fst h
    subst hs
    exact ⟨fun hne => absurd (paintCmds_append_nonpaint s _
      CanvasCmd.beginPath rfl rfl) hne, fun _ hd => hd⟩
  case createLinearGradient x y w hh =>
    have hs := ok_pair_fst h
    subst hs
    exact ⟨fun hne => absurd (paintCmds_append_nonpaint s _
      (CanvasCmd.createLinearGradient x y w hh) rfl rfl) hne, fun _ hd => hd⟩
  case createRadialGradient x0 y0 r0 x1 y1 r1 =>
    have hs := ok_pair_fst h
    subst hs
    exact ⟨fun hne => absurd (paintCmds_append_nonpaint s _
      (CanvasCmd.createRadialGradient x0 y0 r0 x1 y1 r1) rfl rfl) hne, fun _ hd => hd⟩
  case moveTo x y =>
    have hs := ok_pair_fst h
    subst hs
    exact ⟨fun hne => absurd (paintCmds_append_nonpaint s _
      (CanvasCmd.moveTo x y) rfl rfl) hne, fun _ hd => hd⟩
  all_goals have hs := ok_pair_fst h
  all_goals subst hs
  all_goals
    first
    | exact ⟨fun _ => rfl, fun _ _ => rfl⟩
    | exact ⟨fun hne => absurd rfl hne, fun _ hd => hd⟩

/-- Witness for C2 at concrete inputs: a fresh default surface is clean,
and `fillRect(0,0,4,4)` — a buffer-mutating call — leaves a 4×4 surface
dirty. -/
theorem dirty_flag_amended_witness :
    (mkBitmapData RenderType.webgl none none).dirty = false ∧
    (fillRect 0 0 4 4 sampleWebgl).1.dirty = true := by
  have hne : paintCmds (fillRect 0 0 4 4 sampleWebgl).1 ≠ paintCmds sampleWebgl :=
    list_ne_of_length_ne (by decide)
  exact ⟨dirty_flag_amended.1 RenderType.webgl none none,
    (dirty_flag_amended.2 (Op.fillRect 0 0 4 4) sampleWebgl _ _ rfl).1 hne⟩

/-- C6 counterexample: `clear()` mutates the buffer (it issues a
`clearRect` over the whole canvas) but returns `undefined`, not the
surface — refuting that every buffer-mutating operation returns the
surface itself. -/
theorem clear_mutates_but_returns_undef :
    (clear sampleWebgl).2 = Ret.undef ∧
    Ret.undef ≠ Ret.self ∧
    paintCmds (clear sampleWebgl).1 ≠ paintCmds sampleWebgl :=
  ⟨rfl, by decide, list_ne_of_length_ne (by decide)⟩

/-- C6 (amended): among the buffer-mutating operations, the vector ones
(`clearRect`, `fill`, `fillRect`, `stroke`, `strokeRect`) return the
surface itself, while `clear`, `setPixel32` and `setPixel` return
`undefined` — i.e. the return value of a mutating operation is `this`
exactly when the operation is not one of those three. -/
theorem chaining_amended (op : Op) (s s' : BitmapData) (r : Ret)
    (h : applyOp op s = Except.ok (s', r))
    (hne : paintCmds s' ≠ paintCmds s) :
    r = (if returnsUndefOp op then Ret.undef else Ret.self) := by
  cases op
  case getPixel x y =>
    simp only [applyOp] at h
    unfold getPixel at h
    split at h
    · split at h
      · simp [Except.map] at h
      · simp only [Except.map] at h
        have hs := ok_pair_fst h
        subst hs
        exact absurd rfl hne
    · simp only [Except.map] at h
      have hs := ok_pair_fst h
      subst hs
      exact absurd rfl hne
  case getPixel32 x y =>
    simp only [applyOp] at h
    unfold getPixel32 at h
    split at h
    · split at h
      · simp [Except.map] at h
      · simp only [Except.map] at h
        have hs := ok_pair_fst h
        subst hs
        exact absurd rfl hne
    · simp only [Except.map] at h
      have hs := ok_pair_fst h
      subst hs
      exact absurd rfl hne
  case setPixel32 x y red green blue alpha =>
    have hr := ok_pair_snd h
    subst hr
    unfold setPixel32
    split <;> rfl
  case render =>
    have hs := ok_pair_fst h
    subst hs
    exact absurd (show paintCmds (render s).1 = paintCmds s by
      unfold render; split <;> rfl) hne
  case refreshBuffer =>
    have hs := ok_pair_fst h
    subst hs
    exact absurd (paintCmds_append_nonpaint s _
      (CanvasCmd.getImageData 0 0 (s.width : ℝ) (s.height : ℝ)) rfl rfl) hne
  case getPixels x y w hh =>
    have hs := ok_pair_fst h
    subst hs
    exact absurd (paintCmds_append_nonpaint s _
      (CanvasCmd.getImageData x y w hh) rfl rfl) hne
  case createLinearGradient x y w hh =>
    have hs := ok_pair_fst h
    subst hs
    exact absurd (paintCmds_append_nonpaint s _
      (CanvasCmd.createLinearGradient x y w hh) rfl rfl) hne
  case createRadialGradient x0 y0 r0 x1 y1 r1 =>
    have hs := ok_pair_fst h
    subst hs
    exact absurd (paintCmds_append_nonpaint s _
      (CanvasCmd.createRadialGradient x0 y0 r0 x1 y1 r1) rfl rfl) hne
  all_goals have hs := ok_pair_fst h
  all_goals have hr := ok_pair_snd h
  all_goals subst hs
  all_goals subst hr
  all_goals
    first
    | rfl
    | exact absurd rfl hne

/-- Witness for C6 at a concrete mutating vector call: `fillRect` on a
4×4 surface returns the surface itself. -/
theorem chaining_amended_witness :
    (fillRect 2 2 1 1 sampleWebgl).2 = Ret.self := by
  have hne : paintCmds (fillRect 2 2 1 1 sampleWebgl).1 ≠ paintCmds sampleWebgl :=
    list_ne_of_length_ne (by decide)
  simpa using chaining_amended (Op.fillRect 2 2 1 1) sampleWebgl _ _ rfl hne

end Phaser
